import Mathlib

/-!
Shallow embedding of the subscription/billing logic of the billmunshi
Django backend (apps/subscriptions and apps/api), used to check the
natural-language specification against the code.

Conventions of the embedding:
* `Decimal` money values are modelled by `ℚ` (Python `Decimal` arithmetic
  at the inputs we consider is exact rational arithmetic).
* `datetime` values are modelled by `Int` timestamps counted in seconds;
  `timedelta.days` is floor division by 86400 (Python floors toward
  negative infinity, which is `Int.fdiv`).
* Nullable fields (`Optional[...]` / `null=True`) are `Option`.
* Python truthiness on `Optional[int]` (`if proration_days:`) is
  `≠ None` and `≠ 0`; on `Optional[datetime]` it is `≠ None`.
-/

namespace BillMunshi

/-- Seconds in a day; `timedelta(days=n)` is `n * secondsPerDay`. -/
def secondsPerDay : Int := 86400

/-- `timedelta.days` of a timedelta of `seconds` seconds: Python floors
toward negative infinity. -/
def timedelta_days (seconds : Int) : Int := Int.fdiv seconds secondsPerDay

/-- `datetime.date()` as a day number: the calendar day containing the
timestamp. -/
def date_of (t : Int) : Int := Int.fdiv t secondsPerDay

/-- `apps/subscriptions/models.py` `SubscriptionPlan` — the fields the
billing and usage logic reads.  Limits are `PositiveIntegerField`s, hence
`ℕ`. -/
structure SubscriptionPlan where
  price : ℚ
  billing_interval : String
  setup_fee : ℚ
  max_users : ℕ
  max_api_calls_per_month : ℕ
  max_api_keys : ℕ
  max_storage_gb : ℕ
deriving DecidableEq, Repr

/-- `apps/subscriptions/models.py` `SubscriptionDiscount` — the fields
read by `is_valid` and `calculate_discount`.  `percentage_off` and
`amount_off` are nullable in the model; they are only read for the
matching `discount_type`, where a configured discount has them set, so
they are embedded as plain `ℚ`. -/
structure SubscriptionDiscount where
  discount_type : String
  percentage_off : ℚ
  amount_off : ℚ
  max_redemptions : Option ℕ
  current_redemptions : ℕ
  valid_from : Int
  valid_until : Option Int
  is_active : Bool
deriving DecidableEq, Repr

/-- `SubscriptionDiscount.is_valid` (models.py lines 578-595), a property
reading `timezone.now()`, here passed as `now`.  Note the Python
truthiness in `if self.max_redemptions and ...`: both `None` and `0`
skip the redemption check. -/
def SubscriptionDiscount.is_valid (d : SubscriptionDiscount) (now : Int) : Bool :=
  if !d.is_active then false
  else if now < d.valid_from then false
  else if (match d.valid_until with
           | some u => decide (u < now)
           | none => false) then false
  else if (match d.max_redemptions with
           | some m => decide (m ≠ 0) && decide (m ≤ d.current_redemptions)
           | none => false) then false
  else true

/-- `SubscriptionDiscount.calculate_discount` (models.py lines 603-609). -/
def SubscriptionDiscount.calculate_discount (d : SubscriptionDiscount) (amount : ℚ) : ℚ :=
  if d.discount_type = "percentage" then amount * (d.percentage_off / 100)
  else if d.discount_type = "fixed_amount" then min d.amount_off amount
  else 0

/-- Result dictionary of `BillingCalculator.calculate_subscription_cost`. -/
structure CostBreakdown where
  base_price : ℚ
  discount_amount : ℚ
  setup_fee : ℚ
  subtotal : ℚ
  tax_rate : ℚ
  tax_amount : ℚ
  total : ℚ
deriving DecidableEq, Repr

/-- The `total_days` chosen for proration by
`BillingCalculator.calculate_subscription_cost` (utils.py lines 515-522):
30 for monthly, 365 for yearly, 90 for quarterly, 30 otherwise. -/
def proration_total_days (billing_interval : String) : ℕ :=
  if billing_interval = "monthly" then 30
  else if billing_interval = "yearly" then 365
  else if billing_interval = "quarterly" then 90
  else 30

/-- `BillingCalculator.calculate_subscription_cost` (utils.py lines
493-544).  `now` feeds `discount.is_valid`.  The Python guard
`if proration_days:` is false for both `None` and `0`. -/
def calculate_subscription_cost (now : Int) (plan : SubscriptionPlan)
    (custom_price : Option ℚ) (discount : Option SubscriptionDiscount)
    (proration_days : Option Int) : CostBreakdown :=
  let base_price := match custom_price with
    | some p => p
    | none => plan.price
  let discount_amount : ℚ := match discount with
    | some d => if d.is_valid now then d.calculate_discount base_price else 0
    | none => 0
  let subtotal0 := base_price - discount_amount
  let subtotal := match proration_days with
    | some pd =>
        if pd ≠ 0 then (subtotal0 * pd) / (proration_total_days plan.billing_interval : ℚ)
        else subtotal0
    | none => subtotal0
  let setup_fee := plan.setup_fee
  let tax_rate : ℚ := 0
  let tax_amount := subtotal * tax_rate
  { base_price := base_price
    discount_amount := discount_amount
    setup_fee := setup_fee
    subtotal := subtotal
    tax_rate := tax_rate
    tax_amount := tax_amount
    total := subtotal + setup_fee + tax_amount }

/-- The subtotal as the claim words it for `calculate_subscription_cost`:
scaled whenever `proration_days` is given (not `None`) — including when
it is given as `0`.  Written from the claim, for comparison with the
code's behaviour. -/
def claimed_subtotal (plan : SubscriptionPlan) (base_price discount_amount : ℚ)
    (proration_days : Option Int) : ℚ :=
  let subtotal0 := base_price - discount_amount
  match proration_days with
  | some pd => (subtotal0 * pd) / (proration_total_days plan.billing_interval : ℚ)
  | none => subtotal0

/-- A concrete monthly plan used by witnesses and counterexamples. -/
def demoPlan : SubscriptionPlan :=
  { price := 30
    billing_interval := "monthly"
    setup_fee := 5
    max_users := 10
    max_api_calls_per_month := 1000
    max_api_keys := 2
    max_storage_gb := 5 }

/-- `apps/subscriptions/models.py` `OrganizationSubscription` — the
fields read by the usage and billing logic.  `member_count` and
`api_key_count` stand for `organization.member_count` and
`organization.api_key_count`, the counts of the organization's active
members and active API keys (teams/models.py), which are natural
numbers. -/
structure OrganizationSubscription where
  status : String
  plan : SubscriptionPlan
  custom_price : Option ℚ
  current_period_start : Int
  current_period_end : Int
  api_calls_used : ℕ
  storage_used_gb : ℚ
  member_count : ℕ
  api_key_count : ℕ
deriving DecidableEq, Repr

/-- `OrganizationSubscription.effective_price` (models.py lines
175-178): the custom price when set, the plan price otherwise. -/
def OrganizationSubscription.effective_price (s : OrganizationSubscription) : ℚ :=
  match s.custom_price with
  | some p => p
  | none => s.plan.price

/-- `OrganizationSubscription.calculate_usage_percentage` (models.py
lines 207-222). -/
def OrganizationSubscription.calculate_usage_percentage
    (s : OrganizationSubscription) (usage_type : String) : ℚ :=
  if usage_type = "api_calls" then
    if s.plan.max_api_calls_per_month = 0 then 0
    else min (((s.api_calls_used : ℚ) / (s.plan.max_api_calls_per_month : ℚ)) * 100) 100
  else if usage_type = "storage" then
    if s.plan.max_storage_gb = 0 then 0
    else min ((s.storage_used_gb / (s.plan.max_storage_gb : ℚ)) * 100) 100
  else if usage_type = "users" then
    if s.plan.max_users = 0 then 0
    else min (((s.member_count : ℚ) / (s.plan.max_users : ℚ)) * 100) 100
  else 0

/-- `OrganizationSubscription.is_usage_limit_exceeded` (models.py lines
224-226). -/
def OrganizationSubscription.is_usage_limit_exceeded
    (s : OrganizationSubscription) (usage_type : String) : Bool :=
  decide (100 ≤ s.calculate_usage_percentage usage_type)

/-- One entry of the dictionary returned by `get_usage_summary`.  The
entries carry exactly the keys `used`, `limit`, `percentage`,
`exceeded`; in particular no `alert_sent_80` / `alert_sent_100` key is
ever present. -/
structure UsageEntry where
  used : ℚ
  limit : ℕ
  percentage : ℚ
  exceeded : Bool
deriving DecidableEq, Repr

/-- `OrganizationSubscription.get_usage_summary` (models.py lines
228-256), as an association list keyed by usage type.  Note the
`api_keys` entry: its `exceeded` flag is `api_key_count >= max_api_keys`
while its `percentage` falls back to `0` when `max_api_keys` is `0`. -/
def OrganizationSubscription.get_usage_summary
    (s : OrganizationSubscription) : List (String × UsageEntry) :=
  [ ("api_calls",
      { used := (s.api_calls_used : ℚ)
        limit := s.plan.max_api_calls_per_month
        percentage := s.calculate_usage_percentage "api_calls"
        exceeded := s.is_usage_limit_exceeded "api_calls" }),
    ("storage",
      { used := s.storage_used_gb
        limit := s.plan.max_storage_gb
        percentage := s.calculate_usage_percentage "storage"
        exceeded := s.is_usage_limit_exceeded "storage" }),
    ("users",
      { used := (s.member_count : ℚ)
        limit := s.plan.max_users
        percentage := s.calculate_usage_percentage "users"
        exceeded := s.is_usage_limit_exceeded "users" }),
    ("api_keys",
      { used := (s.api_key_count : ℚ)
        limit := s.plan.max_api_keys
        percentage :=
          if 0 < s.plan.max_api_keys then
            min (((s.api_key_count : ℚ) / (s.plan.max_api_keys : ℚ)) * 100) 100
          else 0
        exceeded := decide (s.plan.max_api_keys ≤ s.api_key_count) }) ]

/-- A usage alert produced by `UsageTracker.create_usage_alert`
(utils.py lines 352-389): the `SubscriptionEvent` it creates, with the
event type chosen from the percentage level. -/
structure UsageAlert where
  usage_type : String
  percentage : ℕ
  event_type : String
deriving DecidableEq, Repr

/-- `UsageTracker.create_usage_alert` (utils.py lines 352-389) reduced
to the event it records: `usage_limit_exceeded` at level ≥ 100,
`usage_warning` below. -/
def create_usage_alert (usage_type : String) (percentage : ℕ) : UsageAlert :=
  { usage_type := usage_type
    percentage := percentage
    event_type := if 100 ≤ percentage then "usage_limit_exceeded" else "usage_warning" }

/-- The alert decision `UsageTracker.check_usage_limits` (utils.py lines
336-350) makes for one summary entry.  The guards
`usage_data.get('alert_sent_100')` and `usage_data.get('alert_sent_80')`
always return `None` because `get_usage_summary` never puts those keys
in an entry, so `not ...` is always true and only the percentage
comparisons remain. -/
def alert_for_entry (usage_type : String) (entry : UsageEntry) : Option UsageAlert :=
  if 100 ≤ entry.percentage then some (create_usage_alert usage_type 100)
  else if 80 ≤ entry.percentage then some (create_usage_alert usage_type 80)
  else none

/-- `UsageTracker.check_usage_limits` (utils.py lines 336-350): one pass
over the usage summary, collecting the alerts created. -/
def check_usage_limits (s : OrganizationSubscription) : List UsageAlert :=
  (s.get_usage_summary).filterMap fun p => alert_for_entry p.1 p.2

/-- `apps/subscriptions/models.py` `UsageRecord` — the fields
`record_usage` fills in. -/
structure UsageRecord where
  usage_type : String
  quantity : ℕ
  description : String
deriving DecidableEq, Repr

/-- `UsageTracker.record_usage` (utils.py lines 269-296): the list of
usage records created (always exactly one) and the updated subscription.
Only the `api_calls_used` counter is ever written
(`save(update_fields=['api_calls_used'])`), and only for usage type
`api_call`; the subsequent `check_usage_limits` call creates events and
notifications but writes no subscription field. -/
def record_usage (s : OrganizationSubscription) (usage_type : String)
    (quantity : ℕ) (description : String) :
    List UsageRecord × OrganizationSubscription :=
  let record : UsageRecord :=
    { usage_type := usage_type, quantity := quantity, description := description }
  let s' :=
    if usage_type = "api_call" then
      { s with api_calls_used := s.api_calls_used + quantity }
    else s
  ([record], s')

/-- `SubscriptionManager.change_plan` (utils.py lines 103-161), reduced
to the proration credit it records in the `plan_changed` event metadata
(lines 121-128). -/
def change_plan_proration_credit (s : OrganizationSubscription)
    (effective_date : Int) (prorate : Bool) : ℚ :=
  if prorate && decide (effective_date ≤ s.current_period_end) then
    let days_remaining := timedelta_days (s.current_period_end - effective_date)
    let total_days := timedelta_days (s.current_period_end - s.current_period_start)
    if 0 < total_days then (s.effective_price * (days_remaining : ℚ)) / (total_days : ℚ)
    else 0
  else 0

/-- Result dictionary of `BillingCalculator.calculate_upgrade_proration`;
`net_amount` is `none` when the key is absent from the returned dict. -/
structure UpgradeProration where
  credit_amount : ℚ
  new_charge : ℚ
  net_amount : Option ℚ
  proration_days : Int
deriving DecidableEq, Repr

/-- `BillingCalculator.calculate_upgrade_proration` (utils.py lines
586-620). -/
def calculate_upgrade_proration (s : OrganizationSubscription)
    (new_plan : SubscriptionPlan) (upgrade_date : Int) : UpgradeProration :=
  let days_remaining := timedelta_days (s.current_period_end - upgrade_date)
  let total_days := timedelta_days (s.current_period_end - s.current_period_start)
  if total_days ≤ 0 then
    { credit_amount := 0
      new_charge := new_plan.price
      net_amount := none
      proration_days := 0 }
  else
    let credit_amount := (s.effective_price * (days_remaining : ℚ)) / (total_days : ℚ)
    let new_charge := (new_plan.price * (days_remaining : ℚ)) / (total_days : ℚ)
    { credit_amount := credit_amount
      new_charge := new_charge
      net_amount := some (new_charge - credit_amount)
      proration_days := days_remaining }

/-- Outcome of one rate-limit check in
`apps/api/middleware.py` `EnhancedRateLimitMiddleware`: either a 429
`JsonResponse` carrying the limit and window that was hit, or `allowed`
(the middleware returns `None` and the request proceeds). -/
inductive RateLimitOutcome where
  | rejected (limit : ℕ) (window : String)
  | allowed
deriving DecidableEq, Repr

/-- State of one rate-limit check: the outcome together with the cached
hourly and daily counters after the check (the cache default for an
absent key is `0`). -/
structure RateLimitCheck where
  outcome : RateLimitOutcome
  hourly_count : ℕ
  daily_count : ℕ
deriving DecidableEq, Repr

/-- Whether a check produced a 429 response. -/
def RateLimitCheck.isRejected (c : RateLimitCheck) : Bool :=
  match c.outcome with
  | .rejected _ _ => true
  | .allowed => false

/-- `EnhancedRateLimitMiddleware.check_api_key_rate_limit` (middleware.py
lines 45-85): compare the cached hourly counter against
`api_key.rate_limit_per_hour`, then the cached daily counter against
`api_key.rate_limit_per_day`; only when both pass are both counters
written back incremented. -/
def check_api_key_rate_limit (rate_limit_per_hour rate_limit_per_day : ℕ)
    (hourly_count daily_count : ℕ) : RateLimitCheck :=
  if rate_limit_per_hour ≤ hourly_count then
    { outcome := .rejected rate_limit_per_hour "hour"
      hourly_count := hourly_count
      daily_count := daily_count }
  else if rate_limit_per_day ≤ daily_count then
    { outcome := .rejected rate_limit_per_day "day"
      hourly_count := hourly_count
      daily_count := daily_count }
  else
    { outcome := .allowed
      hourly_count := hourly_count + 1
      daily_count := daily_count + 1 }

/-- `EnhancedRateLimitMiddleware.check_user_rate_limit` (middleware.py
lines 87-145): same comparison/increment shape against the
per-subscription limits `max_hourly_limit` / `max_daily_limit` computed
from the user's memberships. -/
def check_user_rate_limit (max_hourly_limit max_daily_limit : ℕ)
    (hourly_count daily_count : ℕ) : RateLimitCheck :=
  if max_hourly_limit ≤ hourly_count then
    { outcome := .rejected max_hourly_limit "hour"
      hourly_count := hourly_count
      daily_count := daily_count }
  else if max_daily_limit ≤ daily_count then
    { outcome := .rejected max_daily_limit "day"
      hourly_count := hourly_count
      daily_count := daily_count }
  else
    { outcome := .allowed
      hourly_count := hourly_count + 1
      daily_count := daily_count + 1 }

/-- `EnhancedRateLimitMiddleware.check_anonymous_rate_limit`
(middleware.py lines 147-192): fixed limits of 50 per hour and 200 per
day keyed by hashed client IP. -/
def check_anonymous_rate_limit (hourly_count daily_count : ℕ) : RateLimitCheck :=
  if 50 ≤ hourly_count then
    { outcome := .rejected 50 "hour"
      hourly_count := hourly_count
      daily_count := daily_count }
  else if 200 ≤ daily_count then
    { outcome := .rejected 200 "day"
      hourly_count := hourly_count
      daily_count := daily_count }
  else
    { outcome := .allowed
      hourly_count := hourly_count + 1
      daily_count := daily_count + 1 }

/-- A `SubscriptionEvent` as the renewal task reads and writes it: its
type and its `created_at` timestamp. -/
structure SubEvent where
  event_type : String
  created_at : Int
deriving DecidableEq, Repr

/-- A subscription together with its events, the state
`check_subscription_renewals` reads and updates for one subscription. -/
structure SubState where
  status : String
  current_period_end : Int
  events : List SubEvent
deriving DecidableEq, Repr

/-- Number of `renewal_reminder` events of a subscription created on the
given day. -/
def countTodayReminders (events : List SubEvent) (today : Int) : ℕ :=
  events.countP fun e =>
    decide (e.event_type = "renewal_reminder" ∧ date_of e.created_at = today)

/-- The `SubscriptionEvent.objects.filter(...).exists()` dedup check of
the renewal task: some `renewal_reminder` event of this subscription was
created today. -/
def has_reminder_today (events : List SubEvent) (today : Int) : Prop :=
  ∃ e ∈ events, e.event_type = "renewal_reminder" ∧ date_of e.created_at = today

instance (events : List SubEvent) (today : Int) :
    Decidable (has_reminder_today events today) := by
  unfold has_reminder_today
  infer_instance

/-- The effect of one run of the Celery task
`check_subscription_renewals` (tasks.py lines 97-179) on a single
subscription.  The task first walks the expiring queryset (`active`,
`now < current_period_end <= now + 7 days`), computing
`days_until_renewal = (current_period_end - now).days`, and creates a
`renewal_reminder` event only when that is 7, 3 or 1 and no
`renewal_reminder` event with today's `created_at` date exists; it then
walks the overdue queryset (`active`, `current_period_end < now`),
setting the status to `past_due` and recording a `payment_overdue`
event.  The two querysets are disjoint, so per subscription the two
phases compose as written here. -/
def process_renewals_one (now : Int) (s : SubState) : SubState :=
  let s1 :=
    if s.status = "active" ∧ now < s.current_period_end ∧
        s.current_period_end ≤ now + 7 * secondsPerDay then
      let days := timedelta_days (s.current_period_end - now)
      if days = 7 ∨ days = 3 ∨ days = 1 then
        if ¬ has_reminder_today s.events (date_of now) then
          { s with events := s.events ++ [⟨"renewal_reminder", now⟩] }
        else s
      else s
    else s
  if s1.status = "active" ∧ s1.current_period_end < now then
    { s1 with status := "past_due", events := s1.events ++ [⟨"payment_overdue", now⟩] }
  else s1

/-- One run of `check_subscription_renewals` over all subscriptions: the
querysets visit each subscription at most once, so the run is the
per-subscription effect mapped over the subscription table. -/
def check_subscription_renewals (now : Int) (subs : List SubState) : List SubState :=
  subs.map (process_renewals_one now)

/-- The condition under which one run of the task creates a
`renewal_reminder` for a subscription: active, expiring within 7 days,
whole days until renewal exactly 7, 3 or 1, and no reminder already
recorded today. -/
def remindCond (now : Int) (s : SubState) : Prop :=
  s.status = "active" ∧ now < s.current_period_end ∧
    s.current_period_end ≤ now + 7 * secondsPerDay ∧
    (timedelta_days (s.current_period_end - now) = 7 ∨
     timedelta_days (s.current_period_end - now) = 3 ∨
     timedelta_days (s.current_period_end - now) = 1) ∧
    ¬ has_reminder_today s.events (date_of now)

instance (now : Int) (s : SubState) : Decidable (remindCond now s) := by
  unfold remindCond
  infer_instance

/-- A concrete subscription used by witnesses. -/
def demoSub : OrganizationSubscription :=
  { status := "active"
    plan := demoPlan
    custom_price := none
    current_period_start := 0
    current_period_end := 30 * 86400
    api_calls_used := 850
    storage_used_gb := 1
    member_count := 12
    api_key_count := 2 }

/-- A concrete 50%-off percentage discount used by witnesses. -/
def demoDiscount : SubscriptionDiscount :=
  { discount_type := "percentage"
    percentage_off := 50
    amount_off := 0
    max_redemptions := none
    current_redemptions := 0
    valid_from := 0
    valid_until := none
    is_active := true }

/-- A concrete subscription-with-events state used by witnesses: active,
renewing in exactly 7 days, with no events yet. -/
def demoSubState : SubState :=
  { status := "active"
    current_period_end := 7 * 86400
    events := [] }

/-- A concrete overdue subscription state used by witnesses. -/
def demoOverdueState : SubState :=
  { status := "active"
    current_period_end := -86400
    events := [] }

/-- `calculate_discount` never returns more than the amount it is
applied to, given a non-negative amount and, for percentage discounts, a
percentage of at most 100. -/
theorem calculate_discount_le (d : SubscriptionDiscount) (amount : ℚ)
    (h0 : 0 ≤ amount)
    (hp : d.discount_type = "percentage" → d.percentage_off ≤ 100) :
    d.calculate_discount amount ≤ amount := by
  unfold SubscriptionDiscount.calculate_discount
  split_ifs with h1 h2
  · have hle : d.percentage_off / 100 ≤ 1 :=
      (div_le_one (by norm_num : (0:ℚ) < 100)).mpr (hp h1)
    calc amount * (d.percentage_off / 100) ≤ amount * 1 :=
          mul_le_mul_of_nonneg_left hle h0
      _ = amount := mul_one amount
  · exact min_le_right _ _
  · exact h0

/-- C1 (counterexample): `calculate_subscription_cost` called with
`proration_days = 0` — a given, non-`None` value — does NOT scale the
subtotal, because the Python guard `if proration_days:` treats `0` as
false.  The claim's wording scales whenever `proration_days` is given,
which would yield `0` here, but the code returns the unscaled subtotal
`30`. -/
theorem c1_counterexample :
    (calculate_subscription_cost 0 demoPlan none none (some 0)).subtotal = 30 ∧
    claimed_subtotal demoPlan
      (calculate_subscription_cost 0 demoPlan none none (some 0)).base_price
      (calculate_subscription_cost 0 demoPlan none none (some 0)).discount_amount
      (some 0) = 0 ∧
    (calculate_subscription_cost 0 demoPlan none none (some 0)).subtotal ≠
      claimed_subtotal demoPlan
        (calculate_subscription_cost 0 demoPlan none none (some 0)).base_price
        (calculate_subscription_cost 0 demoPlan none none (some 0)).discount_amount
        (some 0) := by
  refine ⟨?_, ?_, ?_⟩ <;>
    norm_num [calculate_subscription_cost, claimed_subtotal, demoPlan, proration_total_days]

/-- C1 (amended): for every call to
`BillingCalculator.calculate_subscription_cost`, the returned
`base_price` is `custom_price` when given and `plan.price` otherwise;
`discount_amount` is non-zero only when a discount is given and valid;
`subtotal` equals `base_price - discount_amount`, scaled — when
`proration_days` is given AND non-zero — by `proration_days` over 30
(monthly), 365 (yearly), 90 (quarterly) or 30 (any other interval);
`tax_rate` and `tax_amount` are 0 and `total` is
`subtotal + plan.setup_fee + tax_amount`. -/
theorem c1_subscription_cost (now : Int) (plan : SubscriptionPlan)
    (custom_price : Option ℚ) (discount : Option SubscriptionDiscount)
    (proration_days : Option Int) (r : CostBreakdown)
    (hr : r = calculate_subscription_cost now plan custom_price discount proration_days) :
    (r.base_price = match custom_price with | some p => p | none => plan.price) ∧
    (r.discount_amount ≠ 0 → ∃ d, discount = some d ∧ d.is_valid now = true) ∧
    (∀ n : Int, proration_days = some n → n ≠ 0 →
      r.subtotal = ((r.base_price - r.discount_amount) * (n : ℚ)) /
        (proration_total_days plan.billing_interval : ℚ)) ∧
    ((proration_days = none ∨ proration_days = some 0) →
      r.subtotal = r.base_price - r.discount_amount) ∧
    proration_total_days "monthly" = 30 ∧ proration_total_days "yearly" = 365 ∧
    proration_total_days "quarterly" = 90 ∧
    (plan.billing_interval ≠ "monthly" → plan.billing_interval ≠ "yearly" →
      plan.billing_interval ≠ "quarterly" → proration_total_days plan.billing_interval = 30) ∧
    r.tax_rate = 0 ∧ r.tax_amount = 0 ∧
    r.total = r.subtotal + plan.setup_fee + r.tax_amount := by
  subst hr
  unfold calculate_subscription_cost
  refine ⟨?_, ?_, ?_, ?_, rfl, rfl, rfl, ?_, ?_, ?_, ?_⟩
  · cases custom_price <;> rfl
  · intro hne
    cases discount with
    | none => simp at hne
    | some d =>
        refine ⟨d, rfl, ?_⟩
        by_contra hv
        simp only [Bool.not_eq_true] at hv
        simp [hv] at hne
  · intro n hn hne
    subst hn
    simp [hne]
  · rintro (h | h) <;> subst h <;> simp
  · intro h1 h2 h3
    unfold proration_total_days
    simp [h1, h2, h3]
  · rfl
  · simp
  · simp [mul_zero]

/-- C1 (witness): the amended statement evaluated at a concrete call
with a non-zero proration over a monthly plan. -/
theorem c1_witness :
    (calculate_subscription_cost 0 demoPlan none none (some 15)).subtotal =
      (((calculate_subscription_cost 0 demoPlan none none (some 15)).base_price -
        (calculate_subscription_cost 0 demoPlan none none (some 15)).discount_amount) * (15 : ℚ)) /
        (proration_total_days demoPlan.billing_interval : ℚ) :=
  (c1_subscription_cost 0 demoPlan none none (some 15) _ rfl).2.2.1 15 rfl (by decide)

/-- C2: in every rate-limit check of `EnhancedRateLimitMiddleware`
(API-key, authenticated-user and anonymous variants), the request is
rejected with a 429 exactly when the cached hourly counter is at or
above the hourly limit or the cached daily counter is at or above the
daily limit; a rejected request increments neither counter, and an
allowed request increments both by exactly one. -/
theorem c2_rate_limit_check (rlh rld uh ud h d : ℕ) :
    (((check_api_key_rate_limit rlh rld h d).isRejected = true ↔ (rlh ≤ h ∨ rld ≤ d)) ∧
     ((check_api_key_rate_limit rlh rld h d).isRejected = true →
        (check_api_key_rate_limit rlh rld h d).hourly_count = h ∧
        (check_api_key_rate_limit rlh rld h d).daily_count = d) ∧
     ((check_api_key_rate_limit rlh rld h d).isRejected = false →
        (check_api_key_rate_limit rlh rld h d).hourly_count = h + 1 ∧
        (check_api_key_rate_limit rlh rld h d).daily_count = d + 1)) ∧
    (((check_user_rate_limit uh ud h d).isRejected = true ↔ (uh ≤ h ∨ ud ≤ d)) ∧
     ((check_user_rate_limit uh ud h d).isRejected = true →
        (check_user_rate_limit uh ud h d).hourly_count = h ∧
        (check_user_rate_limit uh ud h d).daily_count = d) ∧
     ((check_user_rate_limit uh ud h d).isRejected = false →
        (check_user_rate_limit uh ud h d).hourly_count = h + 1 ∧
        (check_user_rate_limit uh ud h d).daily_count = d + 1)) ∧
    (((check_anonymous_rate_limit h d).isRejected = true ↔ (50 ≤ h ∨ 200 ≤ d)) ∧
     ((check_anonymous_rate_limit h d).isRejected = true →
        (check_anonymous_rate_limit h d).hourly_count = h ∧
        (check_anonymous_rate_limit h d).daily_count = d) ∧
     ((check_anonymous_rate_limit h d).isRejected = false →
        (check_anonymous_rate_limit h d).hourly_count = h + 1 ∧
        (check_anonymous_rate_limit h d).daily_count = d + 1)) := by
  unfold check_api_key_rate_limit check_user_rate_limit check_anonymous_rate_limit
  refine ⟨⟨?_, ?_, ?_⟩, ⟨?_, ?_, ?_⟩, ⟨?_, ?_, ?_⟩⟩ <;>
    split_ifs <;> simp_all [RateLimitCheck.isRejected]

/-- C2 (witness): at the anonymous limits, counters 50 and 0 reject on
the hourly limit with counters unchanged, and counters 49 and 0 allow
with both counters incremented. -/
theorem c2_witness :
    ((check_anonymous_rate_limit 50 0).isRejected = true →
      (check_anonymous_rate_limit 50 0).hourly_count = 50 ∧
      (check_anonymous_rate_limit 50 0).daily_count = 0) ∧
    ((check_anonymous_rate_limit 49 0).isRejected = false →
      (check_anonymous_rate_limit 49 0).hourly_count = 49 + 1 ∧
      (check_anonymous_rate_limit 49 0).daily_count = 0 + 1) :=
  ⟨(c2_rate_limit_check 0 0 0 0 50 0).2.2.2.1,
   (c2_rate_limit_check 0 0 0 0 49 0).2.2.2.2⟩

/-- C9: `BillingCalculator.calculate_upgrade_proration` returns a
`net_amount` entry (equal to `new_charge - credit_amount`) exactly when
the current billing period spans a positive whole number of days; when
`(current_period_end - current_period_start).days` is zero or negative
the result is credit 0, the full new plan price, proration_days 0 and no
`net_amount` key. -/
theorem c9_upgrade_proration (s : OrganizationSubscription)
    (new_plan : SubscriptionPlan) (upgrade_date : Int) :
    ((calculate_upgrade_proration s new_plan upgrade_date).net_amount ≠ none ↔
      0 < timedelta_days (s.current_period_end - s.current_period_start)) ∧
    ((calculate_upgrade_proration s new_plan upgrade_date).net_amount =
      if 0 < timedelta_days (s.current_period_end - s.current_period_start) then
        some ((calculate_upgrade_proration s new_plan upgrade_date).new_charge -
          (calculate_upgrade_proration s new_plan upgrade_date).credit_amount)
      else none) ∧
    (timedelta_days (s.current_period_end - s.current_period_start) ≤ 0 →
      calculate_upgrade_proration s new_plan upgrade_date =
        { credit_amount := 0
          new_charge := new_plan.price
          net_amount := none
          proration_days := 0 }) := by
  by_cases h : timedelta_days (s.current_period_end - s.current_period_start) ≤ 0
  · have h2 : ¬ 0 < timedelta_days (s.current_period_end - s.current_period_start) := by omega
    refine ⟨?_, ?_, ?_⟩ <;> simp [calculate_upgrade_proration, h, h2]
  · have h2 : 0 < timedelta_days (s.current_period_end - s.current_period_start) := by omega
    refine ⟨?_, ?_, fun h3 => absurd h3 h⟩ <;> simp [calculate_upgrade_proration, h, h2]

/-- C9 (witness): a one-day-old 30-day period has 29 whole days
remaining and the result carries `net_amount = new_charge - credit`. -/
theorem c9_witness :
    (calculate_upgrade_proration demoSub demoPlan 86400).net_amount =
      if 0 < timedelta_days (demoSub.current_period_end - demoSub.current_period_start) then
        some ((calculate_upgrade_proration demoSub demoPlan 86400).new_charge -
          (calculate_upgrade_proration demoSub demoPlan 86400).credit_amount)
      else none :=
  (c9_upgrade_proration demoSub demoPlan 86400).2.1

/-- C10: for every non-negative amount,
`SubscriptionDiscount.calculate_discount` returns `min(amount_off,
amount)` for a fixed-amount discount, `amount * percentage_off / 100`
for a percentage discount with `percentage_off ≤ 100`, and `0` for any
other discount type, and in all those cases never exceeds the amount;
consequently in `calculate_subscription_cost` the subtotal
`base_price - discount_amount` computed before proration is
non-negative whenever the base price is non-negative (and it is exactly
the returned `subtotal` when no proration is requested). -/
theorem c10_discount_bounded (dc : SubscriptionDiscount) (amount : ℚ)
    (h0 : 0 ≤ amount)
    (hp : dc.discount_type = "percentage" → dc.percentage_off ≤ 100) :
    (dc.discount_type = "fixed_amount" →
      dc.calculate_discount amount = min dc.amount_off amount) ∧
    (dc.discount_type = "percentage" →
      dc.calculate_discount amount = amount * (dc.percentage_off / 100)) ∧
    (dc.discount_type ≠ "percentage" → dc.discount_type ≠ "fixed_amount" →
      dc.calculate_discount amount = 0) ∧
    dc.calculate_discount amount ≤ amount ∧
    (∀ (now : Int) (plan : SubscriptionPlan) (custom_price : Option ℚ)
        (proration_days : Option Int) (r : CostBreakdown),
      r = calculate_subscription_cost now plan custom_price (some dc) proration_days →
      (dc.discount_type = "percentage" → dc.percentage_off ≤ 100) →
      0 ≤ r.base_price →
      0 ≤ r.base_price - r.discount_amount ∧
      (proration_days = none → r.subtotal = r.base_price - r.discount_amount)) := by
  refine ⟨?_, ?_, ?_, calculate_discount_le dc amount h0 hp, ?_⟩
  · intro hfix
    unfold SubscriptionDiscount.calculate_discount
    have hne : dc.discount_type ≠ "percentage" := by simp [hfix]
    simp [hfix, hne]
  · intro hpc
    unfold SubscriptionDiscount.calculate_discount
    simp [hpc]
  · intro h1 h2
    unfold SubscriptionDiscount.calculate_discount
    simp [h1, h2]
  · intro now plan custom_price proration_days r hr hp' hbase
    subst hr
    constructor
    · simp only [calculate_subscription_cost] at hbase ⊢
      split_ifs with hv
      · have := calculate_discount_le dc _ hbase hp'
        linarith
      · simpa using hbase
    · intro hnone
      subst hnone
      rfl

/-- C10 (witness): the 50% demo discount on an amount of 10 yields 5,
which does not exceed 10. -/
theorem c10_witness :
    demoDiscount.calculate_discount 10 = 10 * (demoDiscount.percentage_off / 100) ∧
    demoDiscount.calculate_discount 10 ≤ 10 :=
  ⟨(c10_discount_bounded demoDiscount 10 (by norm_num) (by intro _; norm_num [demoDiscount])).2.1 rfl,
   (c10_discount_bounded demoDiscount 10 (by norm_num) (by intro _; norm_num [demoDiscount])).2.2.2.1⟩

/-- Arithmetic core of `calculate_usage_percentage`: for a non-negative
usage `a` against a non-zero limit `L`, `min ((a / L) * 100) 100` lies
in `[0, 100]` and reaches `100` exactly when `a` is at or above `L`. -/
theorem min_pct_bounds (a : ℚ) (L : ℕ) (ha : 0 ≤ a) (hL : L ≠ 0) :
    0 ≤ min ((a / (L : ℚ)) * 100) 100 ∧
    min ((a / (L : ℚ)) * 100) 100 ≤ 100 ∧
    (100 ≤ min ((a / (L : ℚ)) * 100) 100 ↔ (L : ℚ) ≤ a) := by
  have hLpos : (0 : ℚ) < (L : ℚ) := by exact_mod_cast Nat.pos_of_ne_zero hL
  refine ⟨le_min (by positivity) (by norm_num), min_le_right _ _, ?_⟩
  rw [le_min_iff]
  constructor
  · rintro ⟨h1, -⟩
    have hd : (1 : ℚ) ≤ a / (L : ℚ) := by linarith
    have := (one_le_div hLpos).mp hd
    exact this
  · intro h
    have hd : (1 : ℚ) ≤ a / (L : ℚ) := (one_le_div hLpos).mpr h
    exact ⟨by linarith, le_refl _⟩

/-- C3: the proration credit recorded by `SubscriptionManager.change_plan`
equals `effective_price * days_remaining / total_days` whenever
`prorate=True`, the effective date is not after the period end, and the
period spans a positive number of whole days; with `prorate=False`, an
effective date after the period end, or a non-positive `total_days`, the
recorded credit is 0. -/
theorem c3_change_plan_proration (s : OrganizationSubscription) (effective_date : Int) :
    (0 < timedelta_days (s.current_period_end - s.current_period_start) →
      effective_date ≤ s.current_period_end →
      change_plan_proration_credit s effective_date true =
        (s.effective_price * (timedelta_days (s.current_period_end - effective_date) : ℚ)) /
          (timedelta_days (s.current_period_end - s.current_period_start) : ℚ)) ∧
    change_plan_proration_credit s effective_date false = 0 ∧
    (s.current_period_end < effective_date →
      change_plan_proration_credit s effective_date true = 0) ∧
    (timedelta_days (s.current_period_end - s.current_period_start) ≤ 0 →
      change_plan_proration_credit s effective_date true = 0) := by
  refine ⟨?_, ?_, ?_, ?_⟩
  · intro h1 h2
    simp [change_plan_proration_credit, h1, h2]
  · simp [change_plan_proration_credit]
  · intro h
    have h2 : ¬ effective_date ≤ s.current_period_end := by omega
    simp [change_plan_proration_credit, h2]
  · intro h
    have h2 : ¬ 0 < timedelta_days (s.current_period_end - s.current_period_start) := by omega
    simp [change_plan_proration_credit, h2]

/-- C3 (witness): at the start of a 30-day period, changing plan with
`prorate=True` credits the full effective price, scaled by 30/30. -/
theorem c3_witness :
    change_plan_proration_credit demoSub 0 true =
      (demoSub.effective_price * (timedelta_days (demoSub.current_period_end - 0) : ℚ)) /
        (timedelta_days (demoSub.current_period_end - demoSub.current_period_start) : ℚ) :=
  (c3_change_plan_proration demoSub 0).1 (by decide) (by decide)

/-- C4: `calculate_usage_percentage` returns 0 at a zero limit,
`min(used/limit*100, 100)` at a non-zero limit, and 0 for unknown usage
types; for non-negative usage its value always lies in `[0, 100]`, and
`is_usage_limit_exceeded` holds exactly when used is at or above a
non-zero limit. -/
theorem c4_usage_percentage (s : OrganizationSubscription)
    (h0 : 0 ≤ s.storage_used_gb) :
    (∀ t : String, 0 ≤ s.calculate_usage_percentage t ∧
      s.calculate_usage_percentage t ≤ 100) ∧
    (s.plan.max_api_calls_per_month = 0 → s.calculate_usage_percentage "api_calls" = 0) ∧
    (s.plan.max_api_calls_per_month ≠ 0 →
      s.calculate_usage_percentage "api_calls" =
        min (((s.api_calls_used : ℚ) / (s.plan.max_api_calls_per_month : ℚ)) * 100) 100) ∧
    (s.plan.max_storage_gb = 0 → s.calculate_usage_percentage "storage" = 0) ∧
    (s.plan.max_storage_gb ≠ 0 →
      s.calculate_usage_percentage "storage" =
        min ((s.storage_used_gb / (s.plan.max_storage_gb : ℚ)) * 100) 100) ∧
    (s.plan.max_users = 0 → s.calculate_usage_percentage "users" = 0) ∧
    (s.plan.max_users ≠ 0 →
      s.calculate_usage_percentage "users" =
        min (((s.member_count : ℚ) / (s.plan.max_users : ℚ)) * 100) 100) ∧
    (∀ t : String, t ≠ "api_calls" → t ≠ "storage" → t ≠ "users" →
      s.calculate_usage_percentage t = 0) ∧
    (s.is_usage_limit_exceeded "api_calls" = true ↔
      s.plan.max_api_calls_per_month ≠ 0 ∧
        s.plan.max_api_calls_per_month ≤ s.api_calls_used) ∧
    (s.is_usage_limit_exceeded "storage" = true ↔
      s.plan.max_storage_gb ≠ 0 ∧ (s.plan.max_storage_gb : ℚ) ≤ s.storage_used_gb) ∧
    (s.is_usage_limit_exceeded "users" = true ↔
      s.plan.max_users ≠ 0 ∧ s.plan.max_users ≤ s.member_count) := by
  have bnd : ∀ t : String, 0 ≤ s.calculate_usage_percentage t ∧
      s.calculate_usage_percentage t ≤ 100 := by
    intro t
    unfold OrganizationSubscription.calculate_usage_percentage
    split_ifs with h1 h2 h3 h4 h5 h6
    · norm_num
    · exact ⟨(min_pct_bounds _ _ (by positivity) h2).1,
        (min_pct_bounds _ _ (by positivity) h2).2.1⟩
    · norm_num
    · exact ⟨(min_pct_bounds _ _ h0 h4).1, (min_pct_bounds _ _ h0 h4).2.1⟩
    · norm_num
    · exact ⟨(min_pct_bounds _ _ (by positivity) h6).1,
        (min_pct_bounds _ _ (by positivity) h6).2.1⟩
    · norm_num
  refine ⟨bnd, ?_, ?_, ?_, ?_, ?_, ?_, ?_, ?_, ?_, ?_⟩
  · intro h; simp [OrganizationSubscription.calculate_usage_percentage, h]
  · intro h; simp [OrganizationSubscription.calculate_usage_percentage, h]
  · intro h; simp [OrganizationSubscription.calculate_usage_percentage, h]
  · intro h; simp [OrganizationSubscription.calculate_usage_percentage, h]
  · intro h; simp [OrganizationSubscription.calculate_usage_percentage, h]
  · intro h; simp [OrganizationSubscription.calculate_usage_percentage, h]
  · intro t h1 h2 h3
    simp [OrganizationSubscription.calculate_usage_percentage, h1, h2, h3]
  · unfold OrganizationSubscription.is_usage_limit_exceeded
      OrganizationSubscription.calculate_usage_percentage
    rcases eq_or_ne s.plan.max_api_calls_per_month 0 with h | h
    · simp [h]
    · have := (min_pct_bounds (s.api_calls_used : ℚ) s.plan.max_api_calls_per_month
        (by positivity) h).2.2
      simp only [h]
      simp [this, h, Nat.cast_le]
  · unfold OrganizationSubscription.is_usage_limit_exceeded
      OrganizationSubscription.calculate_usage_percentage
    rcases eq_or_ne s.plan.max_storage_gb 0 with h | h
    · simp [h]
    · have := (min_pct_bounds s.storage_used_gb s.plan.max_storage_gb h0 h).2.2
      simp [this, h]
  · unfold OrganizationSubscription.is_usage_limit_exceeded
      OrganizationSubscription.calculate_usage_percentage
    rcases eq_or_ne s.plan.max_users 0 with h | h
    · simp [h]
    · have := (min_pct_bounds (s.member_count : ℚ) s.plan.max_users (by positivity) h).2.2
      simp [this, h, Nat.cast_le]

/-- C4 (witness): the demo subscription at 850 of 1000 API calls is
within bounds and not over the limit; with 12 members against a limit of
10 the users limit is exceeded. -/
theorem c4_witness :
    (0 ≤ demoSub.calculate_usage_percentage "api_calls" ∧
      demoSub.calculate_usage_percentage "api_calls" ≤ 100) ∧
    (demoSub.is_usage_limit_exceeded "users" = true ↔
      demoSub.plan.max_users ≠ 0 ∧ demoSub.plan.max_users ≤ demoSub.member_count) :=
  ⟨((c4_usage_percentage demoSub (by norm_num [demoSub])).1 "api_calls"),
   (c4_usage_percentage demoSub (by norm_num [demoSub])).2.2.2.2.2.2.2.2.2.2⟩

/-- C7: `UsageTracker.record_usage` creates exactly one usage record
carrying the given type and quantity, increments `api_calls_used` by the
quantity exactly when the usage type is `api_call`, and leaves every
other subscription field (indeed, for non-`api_call` types, the whole
subscription) unchanged. -/
theorem c7_record_usage (s : OrganizationSubscription) (usage_type : String)
    (quantity : ℕ) (description : String) :
    (record_usage s usage_type quantity description).1 =
      [{ usage_type := usage_type, quantity := quantity, description := description }] ∧
    (record_usage s usage_type quantity description).2.api_calls_used =
      s.api_calls_used + (if usage_type = "api_call" then quantity else 0) ∧
    (usage_type ≠ "api_call" → (record_usage s usage_type quantity description).2 = s) ∧
    (record_usage s usage_type quantity description).2.status = s.status ∧
    (record_usage s usage_type quantity description).2.plan = s.plan ∧
    (record_usage s usage_type quantity description).2.custom_price = s.custom_price ∧
    (record_usage s usage_type quantity description).2.current_period_start =
      s.current_period_start ∧
    (record_usage s usage_type quantity description).2.current_period_end =
      s.current_period_end ∧
    (record_usage s usage_type quantity description).2.storage_used_gb =
      s.storage_used_gb ∧
    (record_usage s usage_type quantity description).2.member_count = s.member_count ∧
    (record_usage s usage_type quantity description).2.api_key_count = s.api_key_count := by
  by_cases h : usage_type = "api_call" <;>
    simp [record_usage, h]

/-- C7 (witness): recording 5 units of `storage` usage leaves the demo
subscription unchanged. -/
theorem c7_witness :
    (record_usage demoSub "storage" 5 "").2 = demoSub :=
  (c7_record_usage demoSub "storage" 5 "").2.2.1 (by decide)

/-- C8: in `get_usage_summary`, a zero limit makes `exceeded` false for
the `api_calls`, `storage` and `users` entries (their percentage is 0),
but the `api_keys` entry computes `exceeded` as
`api_key_count >= max_api_keys` rather than from its percentage, so with
`max_api_keys = 0` it is always true even though the percentage is 0. -/
theorem c8_api_keys_exceeded (s : OrganizationSubscription) :
    (s.plan.max_api_calls_per_month = 0 →
      (s.get_usage_summary).lookup "api_calls" =
        some { used := (s.api_calls_used : ℚ), limit := 0, percentage := 0,
               exceeded := false }) ∧
    (s.plan.max_storage_gb = 0 →
      (s.get_usage_summary).lookup "storage" =
        some { used := s.storage_used_gb, limit := 0, percentage := 0,
               exceeded := false }) ∧
    (s.plan.max_users = 0 →
      (s.get_usage_summary).lookup "users" =
        some { used := (s.member_count : ℚ), limit := 0, percentage := 0,
               exceeded := false }) ∧
    (s.plan.max_api_keys = 0 →
      (s.get_usage_summary).lookup "api_keys" =
        some { used := (s.api_key_count : ℚ), limit := 0, percentage := 0,
               exceeded := true }) ∧
    (∀ e : UsageEntry, (s.get_usage_summary).lookup "api_keys" = some e →
      (e.exceeded = true ↔ s.plan.max_api_keys ≤ s.api_key_count)) := by
  refine ⟨?_, ?_, ?_, ?_, ?_⟩
  · intro h
    simp [OrganizationSubscription.get_usage_summary, List.lookup,
      OrganizationSubscription.calculate_usage_percentage,
      OrganizationSubscription.is_usage_limit_exceeded, h]
  · intro h
    simp [OrganizationSubscription.get_usage_summary, List.lookup,
      OrganizationSubscription.calculate_usage_percentage,
      OrganizationSubscription.is_usage_limit_exceeded, h]
  · intro h
    simp [OrganizationSubscription.get_usage_summary, List.lookup,
      OrganizationSubscription.calculate_usage_percentage,
      OrganizationSubscription.is_usage_limit_exceeded, h]
  · intro h
    simp [OrganizationSubscription.get_usage_summary, List.lookup, h]
  · intro e he
    simp [OrganizationSubscription.get_usage_summary, List.lookup] at he
    subst he
    simp

/-- C8 (witness): a plan allowing zero API keys marks the `api_keys`
entry exceeded even with zero keys in use. -/
theorem c8_witness :
    (({ demoSub with
        plan := { demoPlan with max_api_keys := 0 },
        api_key_count := 0 } : OrganizationSubscription).get_usage_summary).lookup
        "api_keys" =
      some { used := ((0 : ℕ) : ℚ), limit := 0, percentage := 0, exceeded := true } :=
  (c8_api_keys_exceeded _).2.2.2.1 rfl

/-- Any alert produced for a summary entry carries that entry's usage
type. -/
theorem alert_for_entry_type (t : String) (e : UsageEntry) (a : UsageAlert)
    (ha : a ∈ alert_for_entry t e) : a.usage_type = t := by
  unfold alert_for_entry at ha
  split_ifs at ha
  · simp only [Option.mem_def, Option.some.injEq] at ha
    rw [← ha]; rfl
  · simp only [Option.mem_def, Option.some.injEq] at ha
    rw [← ha]; rfl
  · simp at ha

/-- C5: one pass of `UsageTracker.check_usage_limits` creates, per usage
type of the summary, an alert at level 100 with event type
`usage_limit_exceeded` when the percentage is at least 100, an alert at
level 80 with event type `usage_warning` when it is at least 80 and
below 100, and no alert below 80 — and never more than one alert per
usage type (the alert types produced in one call are pairwise
distinct). -/
theorem c5_usage_alerts (s : OrganizationSubscription) :
    (∀ p ∈ s.get_usage_summary,
      (100 ≤ p.2.percentage →
        alert_for_entry p.1 p.2 =
          some { usage_type := p.1, percentage := 100,
                 event_type := "usage_limit_exceeded" }) ∧
      (80 ≤ p.2.percentage → p.2.percentage < 100 →
        alert_for_entry p.1 p.2 =
          some { usage_type := p.1, percentage := 80,
                 event_type := "usage_warning" }) ∧
      (p.2.percentage < 80 → alert_for_entry p.1 p.2 = none)) ∧
    check_usage_limits s =
      (s.get_usage_summary).filterMap (fun p => alert_for_entry p.1 p.2) ∧
    List.Pairwise (fun a b => a.usage_type ≠ b.usage_type) (check_usage_limits s) := by
  refine ⟨?_, rfl, ?_⟩
  · intro p _
    refine ⟨?_, ?_, ?_⟩
    · intro h
      simp [alert_for_entry, create_usage_alert, h]
    · intro h1 h2
      have h3 : ¬ 100 ≤ p.2.percentage := by linarith
      simp [alert_for_entry, create_usage_alert, h1, h3]
    · intro h
      have h1 : ¬ 100 ≤ p.2.percentage := by linarith
      have h2 : ¬ 80 ≤ p.2.percentage := by linarith
      simp [alert_for_entry, h1, h2]
  · rw [check_usage_limits, List.pairwise_filterMap]
    unfold OrganizationSubscription.get_usage_summary
    refine List.Pairwise.cons ?_ (List.Pairwise.cons ?_ (List.Pairwise.cons ?_
      (List.pairwise_singleton _ _)))
    · intro q hq a ha b hb
      have hA := alert_for_entry_type _ _ a ha
      have hB := alert_for_entry_type _ _ b hb
      simp only [List.mem_cons, List.mem_singleton, List.not_mem_nil, or_false] at hq
      rcases hq with rfl | rfl | rfl <;> · rw [hA, hB]; simp
    · intro q hq a ha b hb
      have hA := alert_for_entry_type _ _ a ha
      have hB := alert_for_entry_type _ _ b hb
      simp only [List.mem_cons, List.mem_singleton, List.not_mem_nil, or_false] at hq
      rcases hq with rfl | rfl <;> · rw [hA, hB]; simp
    · intro q hq a ha b hb
      have hA := alert_for_entry_type _ _ a ha
      have hB := alert_for_entry_type _ _ b hb
      simp only [List.mem_cons, List.mem_singleton, List.not_mem_nil, or_false] at hq
      rcases hq with rfl
      rw [hA, hB]
      simp

/-- C5 (witness): the demo subscription's `api_calls` entry sits at 85%,
which yields exactly the level-80 `usage_warning` alert. -/
theorem c5_witness :
    alert_for_entry "api_calls"
      { used := (demoSub.api_calls_used : ℚ)
        limit := demoSub.plan.max_api_calls_per_month
        percentage := demoSub.calculate_usage_percentage "api_calls"
        exceeded := demoSub.is_usage_limit_exceeded "api_calls" } =
      some { usage_type := "api_calls", percentage := 80,
             event_type := "usage_warning" } := by
  have h := ((c5_usage_alerts demoSub).1
    ("api_calls",
      { used := (demoSub.api_calls_used : ℚ)
        limit := demoSub.plan.max_api_calls_per_month
        percentage := demoSub.calculate_usage_percentage "api_calls"
        exceeded := demoSub.is_usage_limit_exceeded "api_calls" })
    (by unfold OrganizationSubscription.get_usage_summary; exact List.mem_cons_self _ _))
  refine h.2.1 ?_ ?_ <;>
    norm_num [OrganizationSubscription.calculate_usage_percentage, demoSub, demoPlan,
      min_def]

/-- A subscription has no reminder today exactly when its count of
today's reminders is zero. -/
theorem countTodayReminders_eq_zero (events : List SubEvent) (today : Int) :
    countTodayReminders events today = 0 ↔ ¬ has_reminder_today events today := by
  unfold countTodayReminders has_reminder_today
  rw [List.countP_eq_zero]
  simp

/-- Structural description of one run of `check_subscription_renewals`
on one subscription: the status flips to `past_due` exactly on the
overdue condition, the period end is untouched, and the events grow by a
`renewal_reminder` exactly under `remindCond` and a `payment_overdue`
exactly under the overdue condition. -/
theorem process_renewals_one_spec (now : Int) (s : SubState) :
    process_renewals_one now s =
      { status :=
          if s.status = "active" ∧ s.current_period_end < now then "past_due" else s.status
        current_period_end := s.current_period_end
        events :=
          (if remindCond now s then s.events ++ [⟨"renewal_reminder", now⟩] else s.events) ++
          (if s.status = "active" ∧ s.current_period_end < now then
            [⟨"payment_overdue", now⟩] else []) } := by
  by_cases hover : s.status = "active" ∧ s.current_period_end < now
  · have h1 : ¬ (s.status = "active" ∧ now < s.current_period_end ∧
        s.current_period_end ≤ now + 7 * secondsPerDay) := by
      rintro ⟨-, h, -⟩
      have := hover.2
      omega
    have hrem : ¬ remindCond now s := by
      intro hr
      have := hover.2
      have := hr.2.1
      omega
    have hnow : ¬ now < s.current_period_end := by
      have := hover.2
      omega
    simp [process_renewals_one, hover.1, hover.2, hnow, hrem]
  · by_cases hrem : remindCond now s
    · have hx : ¬ s.current_period_end < now := fun h => hover ⟨hrem.1, h⟩
      simp [process_renewals_one, hrem.1, hrem.2.1, hrem.2.2.1, hrem.2.2.2.1,
        hrem.2.2.2.2, hrem, hx]
    · by_cases h1 : s.status = "active" ∧ now < s.current_period_end ∧
          s.current_period_end ≤ now + 7 * secondsPerDay
      · have hx : ¬ s.current_period_end < now := fun h => hover ⟨h1.1, h⟩
        by_cases h2 : timedelta_days (s.current_period_end - now) = 7 ∨
            timedelta_days (s.current_period_end - now) = 3 ∨
            timedelta_days (s.current_period_end - now) = 1
        · have h3 : has_reminder_today s.events (date_of now) := by
            by_contra h3
            exact hrem ⟨h1.1, h1.2.1, h1.2.2, h2, h3⟩
          simp [process_renewals_one, h1, h2, h3, hover, hrem, hx]
          rw [← h1.1]
        · simp [process_renewals_one, h1, h2, hover, hrem, hx]
          rw [← h1.1]
      · simp [process_renewals_one, h1, hover, hrem]

/-- C6: every run of `check_subscription_renewals` moves each active
subscription whose period end is past to `past_due`; it creates a
`renewal_reminder` only when the whole days until renewal are exactly 7,
3 or 1 and no reminder with today's date exists (adding exactly one in
that case, none otherwise), so a subscription never carries two
same-day renewal reminders after a run. -/
theorem c6_check_renewals (now : Int) (subs : List SubState) (s : SubState)
    (hs : s ∈ subs) :
    process_renewals_one now s ∈ check_subscription_renewals now subs ∧
    (s.status = "active" → s.current_period_end < now →
      (process_renewals_one now s).status = "past_due") ∧
    countTodayReminders (process_renewals_one now s).events (date_of now) =
      countTodayReminders s.events (date_of now) +
        (if remindCond now s then 1 else 0) ∧
    countTodayReminders (process_renewals_one now s).events (date_of now) ≤
      max 1 (countTodayReminders s.events (date_of now)) := by
  have key : countTodayReminders (process_renewals_one now s).events (date_of now) =
      countTodayReminders s.events (date_of now) +
        (if remindCond now s then 1 else 0) := by
    rw [process_renewals_one_spec]
    unfold countTodayReminders
    rw [List.countP_append]
    by_cases hr : remindCond now s
    · have hno : ¬ (s.status = "active" ∧ s.current_period_end < now) := by
        rintro ⟨-, h⟩
        exact absurd hr.2.1 (by omega)
      simp only [if_pos hr, if_neg hno]
      simp [List.countP_append]
    · simp only [if_neg hr]
      by_cases ho : s.status = "active" ∧ s.current_period_end < now
      · simp only [if_pos ho]
        simp
      · simp only [if_neg ho]
        simp
  refine ⟨List.mem_map_of_mem _ hs, ?_, key, ?_⟩
  · intro h1 h2
    rw [process_renewals_one_spec]
    simp [h1, h2]
  · rw [key]
    by_cases hr : remindCond now s
    · rw [if_pos hr, (countTodayReminders_eq_zero s.events (date_of now)).mpr hr.2.2.2.2]
      simp
    · rw [if_neg hr]
      simp [Nat.le_max_right]

/-- C6 (witness): with the clock at 0, a subscription renewing in
exactly 7 days with no prior events gets exactly one reminder, and an
overdue active subscription is moved to `past_due`. -/
theorem c6_witness :
    countTodayReminders (process_renewals_one 0 demoSubState).events (date_of 0) =
      countTodayReminders demoSubState.events (date_of 0) +
        (if remindCond 0 demoSubState then 1 else 0) ∧
    (process_renewals_one 0 demoOverdueState).status = "past_due" :=
  ⟨(c6_check_renewals 0 [demoSubState] demoSubState (List.mem_singleton_self _)).2.2.1,
   (c6_check_renewals 0 [demoOverdueState] demoOverdueState
      (List.mem_singleton_self _)).2.1 rfl (by decide)⟩

end BillMunshi
